import Mathlib

/-!
Verification of the client-side authorization/session model of the
admin-console repository: the role hierarchy and `hasPrivilege` check,
the ban-window check (`isUserObjectBanned` / `isBanned` / `isUserBanned`),
the dashboard pagination guard (`handlePageChange`), the ban action
handler (`handleBanUser`), and the login state transition.

All definitions are shallow embeddings of the TypeScript source
(`src/context/AuthContext.tsx` and the two unnamed dashboard/context
files).  JavaScript semantics that matter are made explicit: object
lookup misses default to `-1` via `?? -1`, empty strings are falsy,
and an invalid `Date` (NaN) compares false against every number.
-/

/-- The fixed role table `GROUP_HIERARCHY` from `AuthContext.tsx`
(identical in the mock context file): a string-keyed object mapping each
of the seven defined tiers to its integer rank. -/
def GROUP_HIERARCHY : List (String × Int) :=
  [("Basic Plan", 0),
   ("Premium Plan", 1),
   ("Junior Support", 2),
   ("Support", 3),
   ("Senior Support", 4),
   ("Admin", 5),
   ("Owner", 6)]

/-- `GROUP_HIERARCHY[g] ?? -1`: the rank of a group label, with a missing
key defaulting to `-1` as in the source's nullish-coalescing lookup. -/
def groupRank (g : String) : Int :=
  match GROUP_HIERARCHY.lookup g with
  | some r => r
  | none => -1

/-- The `User` record of the auth context (`AuthContext.tsx`).  Nullable
string fields become `Option String`. -/
structure User where
  id : Int
  name : String
  email : String
  email_verified_at : Option String
  bio : Option String
  nationality : Option String
  profile_picture_url : Option String
  is_profile_public : Bool
  username : Option String
  group : String
  banned_until : Option String
  ban_reason : Option String
deriving Repr, DecidableEq

/-- The argument type of `hasPrivilege`: TypeScript's
`string | string[]`. -/
inductive RequiredGroups where
  | single (g : String)
  | many (gs : List String)
deriving Repr, DecidableEq

/-- `hasPrivilege` from `AuthContext.tsx` (the mock context file carries
a character-identical copy): `false` when no user is held; otherwise the
user's rank (`GROUP_HIERARCHY[user.group] ?? -1`) is compared against
the required rank — for an array, an OR over the members via the early
`return true` in the loop. -/
def hasPrivilege (user : Option User) (requiredGroups : RequiredGroups) : Bool :=
  match user with
  | none => false
  | some u =>
    let userPrivilege := groupRank u.group
    match requiredGroups with
    | .many gs => gs.any fun g => decide (userPrivilege ≥ groupRank g)
    | .single g => decide (userPrivilege ≥ groupRank g)

/-- A sample user record used for concrete evaluations: every field is
neutral except the group label. -/
def mkUser (g : String) : User :=
  { id := 1, name := "n", email := "e", email_verified_at := some "v",
    bio := none, nationality := none, profile_picture_url := none,
    is_profile_public := true, username := some "u", group := g,
    banned_until := none, ban_reason := none }

/-- Numeric value of a nonempty all-digit character list. -/
def digitsVal (cs : List Char) : Option Nat :=
  if cs ≠ [] ∧ cs.all Char.isDigit then
    some (cs.foldl (fun a c => 10 * a + (c.toNat - 48)) 0)
  else none

/-- Days since the Unix epoch of a civil date (proleptic Gregorian),
with day-of-month overflow rolling into the next month exactly as
ECMAScript's `MakeDay` does. -/
def daysFromCivil (y m d : Nat) : Int :=
  let yy : Int := if m ≤ 2 then (y : Int) - 1 else (y : Int)
  let era : Int := (if 0 ≤ yy then yy else yy - 399) / 400
  let yoe : Int := yy - era * 400
  let doy : Int := (153 * ((m : Int) + (if 2 < m then -3 else 9)) + 2) / 5
    + (d : Int) - 1
  let doe : Int := yoe * 365 + yoe / 4 - yoe / 100 + doy
  era * 146097 + doe - 719468

/-- Model of the JavaScript `Date` constructor's parsing, restricted to
the ISO-8601 UTC form "YYYY-MM-DDTHH:MM:SSZ" that this repository stores
in `banned_until`.  Returns milliseconds since the Unix epoch; any other
string maps to `none`, modelling an invalid `Date` whose NaN time value
compares false against every number. -/
def parseIsoUtc (s : String) : Option Int :=
  match s.toList with
  | [y1, y2, y3, y4, '-', m1, m2, '-', d1, d2, 'T',
     h1, h2, ':', n1, n2, ':', s1, s2, 'Z'] =>
    match digitsVal [y1, y2, y3, y4], digitsVal [m1, m2],
        digitsVal [d1, d2], digitsVal [h1, h2],
        digitsVal [n1, n2], digitsVal [s1, s2] with
    | some y, some mo, some d, some h, some mi, some se =>
      if 1 ≤ mo ∧ mo ≤ 12 ∧ 1 ≤ d ∧ d ≤ 31 ∧ h ≤ 23 ∧ mi ≤ 59 ∧ se ≤ 59 then
        some ((daysFromCivil y mo d * 86400
          + ((h : Int) * 3600 + (mi : Int) * 60 + (se : Int))) * 1000)
      else none
    | _, _, _, _, _, _ => none
  | _ => none

/-- JavaScript falsiness of a nullable string: `null` and `""` are
falsy. -/
def strFalsy (s : Option String) : Bool :=
  match s with
  | none => true
  | some v => decide (v = "")

/-- `isUserObjectBanned` from `AuthContext.tsx` (the mock context file
carries an identical copy): false when no user is held or `banned_until`
is falsy (`null` or `""`); otherwise true iff the parsed `banned_until`
instant is strictly later than the current time `now` (milliseconds
since the epoch). -/
def isUserObjectBanned (userObj : Option User) (now : Int) : Bool :=
  match userObj with
  | none => false
  | some u =>
    match u.banned_until with
    | none => false
    | some s =>
      if s = "" then false
      else
        match parseIsoUtc s with
        | none => false
        | some t => decide (now < t)

/-- `isBanned` from `AuthContext.tsx`: the ban check applied to the
currently held identity at call time. -/
def isBanned (user : Option User) (now : Int) : Bool :=
  isUserObjectBanned user now

/-- The `{access_token, user}` payload of a successful `POST /login`. -/
structure LoginResponse where
  access_token : String
  user : User
deriving Repr, DecidableEq

/-- The auth provider's state: the held identity, the loading and
verification flags, the two popup flags, and the persisted
`localStorage` token. -/
structure AuthState where
  user : Option User
  isLoading : Bool
  isVerifying : Bool
  showVerificationPopup : Bool
  showBanPopup : Bool
  auth_token : Option String
deriving Repr, DecidableEq

/-- `login` from `AuthContext.tsx` as a state transition.  The network
outcome is passed in: on `Except.error` the `try` body is abandoned
before any write, so only the `finally` clause (`setIsLoading(false)`)
runs; on success the token is persisted, the identity replaced, and the
verification/ban popups recomputed from the returned data. -/
def login (resp : Except String LoginResponse) (now : Int)
    (s : AuthState) : AuthState :=
  match resp with
  | .error _ => { s with isLoading := false }
  | .ok d =>
    let s1 := { s with auth_token := some d.access_token,
                       user := some d.user }
    let s2 := if strFalsy d.user.email_verified_at then
        { s1 with showVerificationPopup := true }
      else s1
    let s3 := if isUserObjectBanned (some d.user) now then
        { s2 with showBanPopup := true }
      else
        { s2 with showBanPopup := false }
    { s3 with isLoading := false }

/-- The `UserProfileData` record of the admin dashboard file; fields
marked optional in TypeScript become `Option`s. -/
structure UserProfileData where
  id : Int
  username : String
  name : Option String
  email : Option String
  bio : Option String
  nationality : Option String
  profile_picture_url : Option String
  is_profile_public : Bool
  group : String
  banned_until : Option String
  ban_reason : Option String
  is_private : Option Bool
  message : Option String
  created_at : Option String
deriving Repr, DecidableEq

/-- The dashboard's `PaginationMeta` record. -/
structure PaginationMeta where
  current_page : Int
  last_page : Int
  per_page : Int
  total : Int
deriving Repr, DecidableEq

/-- The parameters of a `GET /users` request issued by `fetchUsers`. -/
structure FetchUsersCall where
  page : Int
  search : String
deriving Repr, DecidableEq

/-- The slice of dashboard state that `handlePageChange` can read or
affect synchronously: the user list, the pagination metadata, and the
search query (user list and pagination are only rewritten later, by the
response handler of the issued fetch). -/
structure DashboardListState where
  users : List UserProfileData
  pagination : PaginationMeta
  searchQuery : String
deriving Repr, DecidableEq

/-- `handlePageChange` from the dashboard file: `fetchUsers(page,
searchQuery)` is called only when `page >= 1 && page <=
pagination.last_page`; the function returns the issued network request
(if any) together with the list state, which it never mutates
synchronously. -/
def handlePageChange (page : Int) (s : DashboardListState) :
    Option FetchUsersCall × DashboardListState :=
  if 1 ≤ page ∧ page ≤ s.pagination.last_page then
    (some { page := page, search := s.searchQuery }, s)
  else
    (none, s)

/-- The `'success' | 'error'` tag of an admin action message. -/
inductive MsgType where
  | error
  | success
deriving Repr, DecidableEq

/-- The dashboard's `adminActionMessage` payload `{type, text}`. -/
structure AdminActionMessage where
  type : MsgType
  text : String
deriving Repr, DecidableEq

/-- The slice of dashboard state that `handleBanUser` reads and writes:
the selected user, the two ban form buffers, and the action message. -/
structure BanModalState where
  selectedUser : Option UserProfileData
  banReason : String
  bannedUntil : String
  adminActionMessage : Option AdminActionMessage
deriving Repr, DecidableEq

/-- The client-side validation message of `handleBanUser`. -/
def fillBanFieldsMsg : AdminActionMessage :=
  { type := .error, text := "Please fill all ban fields." }

/-- The body (plus target id) of a `POST /admin/users/{id}/ban` request:
`ban_reason` always, `banned_until` only for non-permanent bans. -/
structure BanRequest where
  userId : Int
  ban_reason : String
  banned_until : Option String
deriving Repr, DecidableEq

/-- `handleBanUser` from the dashboard file as a state transition.  The
guards mirror the source's JavaScript truthiness: `!selectedUser?.id`
rejects a missing selection and the id `0`; `(!permanent &&
!bannedUntil) || !banReason` rejects empty form buffers with the local
message "Please fill all ban fields." and no network call.  Otherwise
the request is issued and, depending on the passed-in outcome, the
selected record is patched in place (`banned_until: data.banned_until ||
null`, `ban_reason: banReason`) with a success message, or only an error
message (the server's, with a fixed fallback) is shown. -/
def handleBanUser (permanent : Bool) (outcome : Except (Option String) Unit)
    (s : BanModalState) : Option BanRequest × BanModalState :=
  match s.selectedUser with
  | none => (none, s)
  | some u =>
    if u.id = 0 then (none, s)
    else if (permanent = false ∧ s.bannedUntil = "") ∨ s.banReason = "" then
      (none, { s with adminActionMessage := some fillBanFieldsMsg })
    else
      let payload : BanRequest :=
        { userId := u.id, ban_reason := s.banReason,
          banned_until := if permanent then none else some s.bannedUntil }
      match outcome with
      | .ok _ =>
        let okMsg : AdminActionMessage :=
          { type := .success,
            text := "User " ++ u.username ++ " banned successfully!" }
        let patched : UserProfileData :=
          { u with
            banned_until :=
              match payload.banned_until with
              | some b => if b = "" then none else some b
              | none => none,
            ban_reason := some s.banReason }
        (some payload, { s with adminActionMessage := some okMsg,
                                selectedUser := some patched })
      | .error msg =>
        let errMsg : AdminActionMessage :=
          { type := .error,
            text := msg.getD
              "Failed to ban user. Check privileges or user ID." }
        (some payload, { s with adminActionMessage := some errMsg })

/-- `isUserBanned` from the dashboard file: truthiness of
`user.banned_until && new Date(user.banned_until) > new Date()`. -/
def isUserBanned (user : UserProfileData) (now : Int) : Bool :=
  match user.banned_until with
  | none => false
  | some s =>
    if s = "" then false
    else
      match parseIsoUtc s with
      | none => false
      | some t => decide (now < t)

/-- A sample dashboard profile record for concrete evaluations. -/
def sampleProfile : UserProfileData :=
  { id := 7, username := "alice", name := some "Alice", email := some "a@x",
    bio := none, nationality := some "SE", profile_picture_url := none,
    is_profile_public := true, group := "Basic Plan",
    banned_until := none, ban_reason := none, is_private := some false,
    message := none, created_at := some "2024-01-01T00:00:00Z" }

/-- A sample list state matching the dashboard's initial pagination
shape, with `last_page = 3`. -/
def sampleListState : DashboardListState :=
  { users := [sampleProfile],
    pagination := { current_page := 1, last_page := 3, per_page := 15,
                    total := 31 },
    searchQuery := "" }

/-- A sample modal state with a selected user and filled form buffers. -/
def sampleModal : BanModalState :=
  { selectedUser := some sampleProfile, banReason := "spam",
    bannedUntil := "2030-01-01T00:00:00Z", adminActionMessage := none }

/-- Every rank stored in the hierarchy table is nonnegative. -/
theorem lookup_rank_nonneg {g : String} {k : Int}
    (h : GROUP_HIERARCHY.lookup g = some k) : 0 ≤ k := by
  simp only [GROUP_HIERARCHY, List.lookup] at h
  repeat' split at h
  all_goals simp_all
  all_goals omega

/-- A defined label's rank is the table entry. -/
theorem groupRank_defined {g : String} {k : Int}
    (h : GROUP_HIERARCHY.lookup g = some k) : groupRank g = k := by
  simp [groupRank, h]

/-- An unknown label's rank is the default `-1`. -/
theorem groupRank_unknown {g : String}
    (h : GROUP_HIERARCHY.lookup g = none) : groupRank g = -1 := by
  simp [groupRank, h]

/-- Every rank, defined or defaulted, is at least `-1`. -/
theorem groupRank_ge_neg_one (g : String) : -1 ≤ groupRank g := by
  rcases h : GROUP_HIERARCHY.lookup g with _ | k
  · simp [groupRank_unknown h]
  · have := lookup_rank_nonneg h
    rw [groupRank_defined h]
    omega

/-- Membership characterization of the Boolean OR in the array branch. -/
theorem hasPrivilege_many_iff (u : User) (gs : List String) :
    hasPrivilege (some u) (.many gs) = true ↔
      ∃ g ∈ gs, groupRank g ≤ groupRank u.group := by
  simp [hasPrivilege, ge_iff_le]

/-- Characterization of the single-group branch. -/
theorem hasPrivilege_single_iff (u : User) (g : String) :
    hasPrivilege (some u) (.single g) = true ↔
      groupRank g ≤ groupRank u.group := by
  simp [hasPrivilege, ge_iff_le]

/-- C1: `hasPrivilege` with no held identity is false; with a held
identity it is true iff the identity's rank is at least the required
rank (single form), and for a set iff the rank is at least the rank of
at least one member (an OR, not an AND); in particular a "Support" user
checked against ["Admin", "Owner", "Senior Support"] gets false. -/
theorem hasPrivilege_spec :
    (∀ req, hasPrivilege none req = false) ∧
    (∀ (u : User) (g : String),
      hasPrivilege (some u) (.single g) = true ↔
        groupRank u.group ≥ groupRank g) ∧
    (∀ (u : User) (gs : List String),
      hasPrivilege (some u) (.many gs) = true ↔
        ∃ g ∈ gs, groupRank u.group ≥ groupRank g) ∧
    hasPrivilege (some (mkUser "Support"))
        (.many ["Admin", "Owner", "Senior Support"]) = false := by
  refine ⟨fun req => rfl, fun u g => ?_, fun u gs => ?_, by decide⟩
  · simpa [ge_iff_le] using hasPrivilege_single_iff u g
  · simpa [ge_iff_le] using hasPrivilege_many_iff u gs

/-- C3: a user whose group label is not in the hierarchy fails every
privilege check against defined roles, whether the requirement is a
single defined role or a set of defined roles; equivalently the unknown
label's rank sits strictly below every defined rank. -/
theorem hasPrivilege_unknown_group_false (u : User)
    (hu : GROUP_HIERARCHY.lookup u.group = none) :
    (∀ r, (GROUP_HIERARCHY.lookup r).isSome →
      hasPrivilege (some u) (.single r) = false) ∧
    (∀ gs : List String, (∀ g ∈ gs, (GROUP_HIERARCHY.lookup g).isSome) →
      hasPrivilege (some u) (.many gs) = false) ∧
    (∀ r k, GROUP_HIERARCHY.lookup r = some k → groupRank u.group < k) := by
  have hrank : groupRank u.group = -1 := groupRank_unknown hu
  have below : ∀ r, (GROUP_HIERARCHY.lookup r).isSome →
      groupRank u.group < groupRank r := by
    intro r hr
    rcases Option.isSome_iff_exists.mp hr with ⟨k, hk⟩
    have := lookup_rank_nonneg hk
    rw [hrank, groupRank_defined hk]
    omega
  refine ⟨fun r hr => ?_, fun gs hgs => ?_, fun r k hk => ?_⟩
  · have hb : ¬ (hasPrivilege (some u) (.single r) = true) := by
      rw [hasPrivilege_single_iff]
      exact not_le.mpr (below r hr)
    simpa using hb
  · have hb : ¬ (hasPrivilege (some u) (.many gs) = true) := by
      rw [hasPrivilege_many_iff]
      rintro ⟨g, hg, hle⟩
      exact absurd hle (not_le.mpr (below g (hgs g hg)))
    simpa using hb
  · have := lookup_rank_nonneg hk
    rw [hrank]
    omega

/-- Witness for C3 at a concrete unknown label and defined requirements. -/
theorem hasPrivilege_unknown_group_false_witness :
    hasPrivilege (some (mkUser "Moderator")) (.single "Admin") = false ∧
    hasPrivilege (some (mkUser "Moderator"))
      (.many ["Admin", "Owner"]) = false := by
  have h := hasPrivilege_unknown_group_false (mkUser "Moderator") (by decide)
  exact ⟨h.1 "Admin" (by decide), h.2.1 ["Admin", "Owner"] (by decide)⟩

/-- C4: privilege is monotone in the hierarchy: a user whose group is a
defined role ranked strictly above another defined role passes the
privilege check for the lower role. -/
theorem hasPrivilege_monotone (u : User) (r1 r2 : String) (k1 k2 : Int)
    (hg : u.group = r1)
    (h1 : GROUP_HIERARCHY.lookup r1 = some k1)
    (h2 : GROUP_HIERARCHY.lookup r2 = some k2)
    (hlt : k2 < k1) :
    hasPrivilege (some u) (.single r2) = true := by
  rw [hasPrivilege_single_iff, hg, groupRank_defined h1, groupRank_defined h2]
  omega

/-- Witness for C4: an "Admin" user passes the "Support" check. -/
theorem hasPrivilege_monotone_witness :
    hasPrivilege (some (mkUser "Admin")) (.single "Support") = true :=
  hasPrivilege_monotone (mkUser "Admin") "Admin" "Support" 5 3
    (by decide) (by decide) (by decide) (by decide)

/-- C9: against an undefined required role (or a set containing one),
`hasPrivilege` is true for every held identity, whatever its group —
both unknown user groups and unknown required roles share the default
rank `-1`, and every user rank is at least `-1`. -/
theorem hasPrivilege_unknown_required_true (u : User) :
    (∀ g, GROUP_HIERARCHY.lookup g = none →
      hasPrivilege (some u) (.single g) = true) ∧
    (∀ (gs : List String) (g : String), g ∈ gs →
      GROUP_HIERARCHY.lookup g = none →
      hasPrivilege (some u) (.many gs) = true) := by
  constructor
  · intro g hg
    rw [hasPrivilege_single_iff, groupRank_unknown hg]
    exact groupRank_ge_neg_one u.group
  · intro gs g hmem hg
    rw [hasPrivilege_many_iff]
    refine ⟨g, hmem, ?_⟩
    rw [groupRank_unknown hg]
    exact groupRank_ge_neg_one u.group

/-- Witness for C9: even the lowest defined tier ("Basic Plan") passes a
check against the undefined role "Moderator", alone or inside a set. -/
theorem hasPrivilege_unknown_required_true_witness :
    hasPrivilege (some (mkUser "Basic Plan")) (.single "Moderator") = true ∧
    hasPrivilege (some (mkUser "Basic Plan"))
      (.many ["Moderator", "Owner"]) = true := by
  have h := hasPrivilege_unknown_required_true (mkUser "Basic Plan")
  exact ⟨h.1 "Moderator" (by decide),
    h.2 ["Moderator", "Owner"] "Moderator" (by decide) (by decide)⟩

/-- The empty string is not a parsable date. -/
theorem parseIsoUtc_empty : parseIsoUtc "" = none := rfl

/-- Characterization of the ban check: true exactly when an identity is
held whose `banned_until` parses to an instant strictly after `now`. -/
theorem isBanned_true_iff (user : Option User) (now : Int) :
    isBanned user now = true ↔
      ∃ u s t, user = some u ∧ u.banned_until = some s ∧
        parseIsoUtc s = some t ∧ now < t := by
  constructor
  · intro h
    rcases user with _ | u
    · simp [isBanned, isUserObjectBanned] at h
    rcases hb : u.banned_until with _ | s
    · simp [isBanned, isUserObjectBanned, hb] at h
    simp only [isBanned, isUserObjectBanned, hb] at h
    split at h
    · cases h
    rcases hp : parseIsoUtc s with _ | t
    · rw [hp] at h; cases h
    rw [hp] at h
    exact ⟨u, s, t, rfl, hb, hp, of_decide_eq_true h⟩
  · rintro ⟨u, s, t, rfl, hb, hp, hlt⟩
    have hs : s ≠ "" := by
      intro he
      subst he
      rw [parseIsoUtc_empty] at hp
      cases hp
    simp [isBanned, isUserObjectBanned, hb, hs, hp, hlt]

/-- C2: `isBanned` is true iff an identity is held, its `banned_until`
is non-null, and it parses to an instant strictly later than the
evaluation time passed to the call — the result is a pure function of
the identity and the evaluation time, recomputed per call; with
`banned_until = "2020-01-01T00:00:00Z"` and any evaluation time from
2025 on, the result is false. -/
theorem isBanned_spec :
    (∀ (user : Option User) (now : Int),
      isBanned user now = true ↔
        ∃ u s t, user = some u ∧ u.banned_until = some s ∧
          parseIsoUtc s = some t ∧ now < t) ∧
    (∀ (u : User) (now : Int),
      u.banned_until = some "2020-01-01T00:00:00Z" →
      1735689600000 ≤ now →
      isBanned (some u) now = false) := by
  refine ⟨isBanned_true_iff, fun u now hb hnow => ?_⟩
  have hp : parseIsoUtc "2020-01-01T00:00:00Z" = some 1577836800000 := by
    decide
  have hs : ("2020-01-01T00:00:00Z" : String) ≠ "" := by decide
  simp [isBanned, isUserObjectBanned, hb, hs, hp]
  omega

/-- Witness for C2: a concretely banned-until-2020 user evaluated at a
2025 instant is not banned. -/
theorem isBanned_spec_witness :
    isBanned (some { mkUser "Support" with
      banned_until := some "2020-01-01T00:00:00Z" }) 1749990645000 = false :=
  isBanned_spec.2 _ 1749990645000 rfl (by decide)

/-- C5: a page-change request outside `[1, last_page]` — page `0` and
`last_page + 1` in particular — issues no network call and leaves the
user list and pagination state unchanged; a request inside the interval
issues the fetch for that page with the current search query. -/
theorem handlePageChange_spec :
    (∀ (page : Int) (s : DashboardListState),
      page < 1 ∨ s.pagination.last_page < page →
      handlePageChange page s = (none, s)) ∧
    (∀ (page : Int) (s : DashboardListState),
      1 ≤ page → page ≤ s.pagination.last_page →
      handlePageChange page s =
        (some { page := page, search := s.searchQuery }, s)) ∧
    (∀ s : DashboardListState, handlePageChange 0 s = (none, s)) ∧
    (∀ s : DashboardListState,
      handlePageChange (s.pagination.last_page + 1) s = (none, s)) := by
  have hout : ∀ (page : Int) (s : DashboardListState),
      page < 1 ∨ s.pagination.last_page < page →
      handlePageChange page s = (none, s) := by
    intro page s h
    unfold handlePageChange
    rw [if_neg]
    omega
  refine ⟨hout, ?_, fun s => hout 0 s (by omega),
    fun s => hout (s.pagination.last_page + 1) s (by omega)⟩
  intro page s h1 h2
  unfold handlePageChange
  rw [if_pos ⟨h1, h2⟩]

/-- Witness for C5 at a concrete list state with `last_page = 3`:
pages 0 and 4 issue nothing and keep the state; page 2 issues the
fetch. -/
theorem handlePageChange_spec_witness :
    handlePageChange 0 sampleListState = (none, sampleListState) ∧
    handlePageChange 4 sampleListState = (none, sampleListState) ∧
    handlePageChange 2 sampleListState =
      (some { page := 2, search := "" }, sampleListState) :=
  ⟨handlePageChange_spec.2.2.1 sampleListState,
   handlePageChange_spec.1 4 sampleListState (by decide),
   handlePageChange_spec.2.1 2 sampleListState (by decide) (by decide)⟩

/-- C6: when the ban request succeeds, the selected record is patched in
place: `banned_until` and `ban_reason` come from the submitted form
values (`banned_until` becomes `null` for a permanent ban), and every
other field of the selected record is unchanged. -/
theorem handleBanUser_success_frame (permanent : Bool)
    (s : BanModalState) (u : UserProfileData)
    (hsel : s.selectedUser = some u) (hid : ¬ u.id = 0)
    (hval : ¬ ((permanent = false ∧ s.bannedUntil = "") ∨ s.banReason = "")) :
    ∃ u', (handleBanUser permanent (.ok ()) s).2.selectedUser = some u' ∧
      u'.banned_until =
        (if permanent then none
         else if s.bannedUntil = "" then none else some s.bannedUntil) ∧
      u'.ban_reason = some s.banReason ∧
      u'.id = u.id ∧ u'.username = u.username ∧ u'.name = u.name ∧
      u'.email = u.email ∧ u'.bio = u.bio ∧
      u'.nationality = u.nationality ∧
      u'.profile_picture_url = u.profile_picture_url ∧
      u'.is_profile_public = u.is_profile_public ∧
      u'.group = u.group ∧ u'.is_private = u.is_private ∧
      u'.message = u.message ∧ u'.created_at = u.created_at := by
  unfold handleBanUser
  rw [hsel]
  simp only [if_neg hid, if_neg hval]
  refine ⟨_, rfl, ?_, rfl, rfl, rfl, rfl, rfl, rfl, rfl, rfl, rfl, rfl,
    rfl, rfl, rfl⟩
  cases permanent <;> simp

/-- Witness for C6: a successful 30-day-style ban on the sample modal
patches the two ban fields and nothing else. -/
theorem handleBanUser_success_frame_witness :
    ∃ u', (handleBanUser false (.ok ()) sampleModal).2.selectedUser
        = some u' ∧
      u'.banned_until =
        (if (false : Bool) then none
         else if sampleModal.bannedUntil = "" then none
         else some sampleModal.bannedUntil) ∧
      u'.ban_reason = some sampleModal.banReason ∧
      u'.id = sampleProfile.id ∧ u'.username = sampleProfile.username ∧
      u'.name = sampleProfile.name ∧ u'.email = sampleProfile.email ∧
      u'.bio = sampleProfile.bio ∧
      u'.nationality = sampleProfile.nationality ∧
      u'.profile_picture_url = sampleProfile.profile_picture_url ∧
      u'.is_profile_public = sampleProfile.is_profile_public ∧
      u'.group = sampleProfile.group ∧
      u'.is_private = sampleProfile.is_private ∧
      u'.message = sampleProfile.message ∧
      u'.created_at = sampleProfile.created_at :=
  handleBanUser_success_frame false sampleModal sampleProfile rfl
    (by decide) (by decide)

/-- C7: with a user selected, a ban submission missing the reason, or a
non-permanent one missing the date, is rejected before any network call:
the only state change is the local error message "Please fill all ban
fields.", and the selected record is untouched. -/
theorem handleBanUser_validation_reject (permanent : Bool)
    (outcome : Except (Option String) Unit)
    (s : BanModalState) (u : UserProfileData)
    (hsel : s.selectedUser = some u) (hid : ¬ u.id = 0)
    (hval : (permanent = false ∧ s.bannedUntil = "") ∨ s.banReason = "") :
    handleBanUser permanent outcome s =
      (none, { s with adminActionMessage := some fillBanFieldsMsg }) ∧
    (handleBanUser permanent outcome s).2.selectedUser = s.selectedUser := by
  unfold handleBanUser
  rw [hsel]
  simp only [if_neg hid, if_pos hval]
  exact ⟨trivial, trivial⟩

/-- Witness for C7: an empty ban reason on the sample modal is rejected
with the fill-fields message and no request. -/
theorem handleBanUser_validation_reject_witness :
    handleBanUser false (.ok ()) ({ sampleModal with banReason := "" }) =
      (none, { sampleModal with banReason := "", adminActionMessage := some fillBanFieldsMsg }) :=
  (handleBanUser_validation_reject false (.ok ())
    ({ sampleModal with banReason := "" }) sampleProfile rfl
    (by decide) (Or.inr rfl)).1

/-- C10: a successful permanent ban patches the selected record with
`banned_until = null`, so the dashboard's own `isUserBanned` check
reports that user as not banned at every evaluation time. -/
theorem handleBanUser_permanent_not_banned
    (s : BanModalState) (u : UserProfileData)
    (hsel : s.selectedUser = some u) (hid : ¬ u.id = 0)
    (hreason : ¬ s.banReason = "") :
    ∃ u', (handleBanUser true (.ok ()) s).2.selectedUser = some u' ∧
      u'.banned_until = none ∧
      ∀ now : Int, isUserBanned u' now = false := by
  unfold handleBanUser
  rw [hsel]
  have hval : ¬ (((true : Bool) = false ∧ s.bannedUntil = "")
      ∨ s.banReason = "") := by
    rintro (⟨h, _⟩ | h)
    · cases h
    · exact hreason h
  simp only [if_neg hid, if_neg hval]
  refine ⟨_, rfl, rfl, fun now => rfl⟩

/-- Witness for C10: a permanent ban on the sample modal leaves a record
that `isUserBanned` reports unbanned at a concrete 2025 instant. -/
theorem handleBanUser_permanent_not_banned_witness :
    ∃ u', (handleBanUser true (.ok ()) sampleModal).2.selectedUser
        = some u' ∧
      u'.banned_until = none ∧
      isUserBanned u' 1749990645000 = false := by
  rcases handleBanUser_permanent_not_banned sampleModal sampleProfile rfl
    (by decide) (by decide) with ⟨u', h1, h2, h3⟩
  exact ⟨u', h1, h2, h3 1749990645000⟩

/-- C8: a failed login performs no state write besides clearing the
loading flag: the held identity and the persisted token — and the popup
flags — are exactly what they were before the call. -/
theorem login_failure_frame (e : String) (now : Int) (s : AuthState) :
    login (.error e) now s = { s with isLoading := false } ∧
    (login (.error e) now s).user = s.user ∧
    (login (.error e) now s).auth_token = s.auth_token ∧
    (login (.error e) now s).showVerificationPopup
      = s.showVerificationPopup ∧
    (login (.error e) now s).showBanPopup = s.showBanPopup := by
  exact ⟨rfl, rfl, rfl, rfl, rfl⟩
